import Mathlib

/-!
# Verification of the react-draggable-ts drag core

Shallow embedding of the pointer-tracker (src/src/components/DraggableCore.tsx),
the position reconciler (src/unnamed/part_000, class Draggable) and the pure
position helpers (src/src/utils/draggable/positionFns.ts, domFns).

Modelling conventions:
* JavaScript numbers are modelled as rationals; the NaN sentinel used for
  lastX / lastY is modelled as the none case of Option.
* DOM geometry (the offset parent's scroll offset and bounding-rect origin)
  is a Geom parameter; the body short-circuit of offsetXYFromParent simply
  corresponds to a Geom with zero rect origin.
* Selector matching (handle / cancel props) is a property of the incoming
  event's target, carried on the event as the booleans matchesHandle and
  matchesCancel; the props only record whether a selector is configured.
* Host callbacks return Option Bool (JS bool | undefined); the veto signal
  is the literal false, i.e. some false.  A callback may also tear the
  component down, which the code observes through this.mounted; the CbOut
  record carries that bit.
* The document-level move/stop listeners and the user-select guard are
  modelled as booleans of the tracker state.
-/

/-- One entry of a TouchList: a stable identifier plus client coordinates. -/
structure Touch where
  identifier : Int
  clientX : ℚ
  clientY : ℚ
deriving DecidableEq, Repr

/-- The parts of a mouse/touch event the drag core reads.  targetIsNode,
matchesHandle and matchesCancel record the outcome of the DOM tests
(e.target instanceof Node, matchesSelectorAndParentsTo for the handle and
cancel selectors) for this event's target. -/
structure MouseTouchEvent where
  button : Option Int
  clientX : ℚ
  clientY : ℚ
  targetTouches : Option (List Touch)
  changedTouches : Option (List Touch)
  targetIsNode : Bool
  matchesHandle : Bool
  matchesCancel : Bool
deriving DecidableEq, Repr

/-- domFns.getTouchIdentifier: first target touch's identifier, else first
changed touch's identifier, else undefined. -/
def getTouchIdentifier (e : MouseTouchEvent) : Option Int :=
  match (e.targetTouches.getD []).head? with
  | some t => some t.identifier
  | none => (e.changedTouches.getD []).head?.map (fun t => t.identifier)

/-- findInArray specialised to touch lists: first touch with the identifier. -/
def findTouch (l : List Touch) (id : Int) : Option Touch :=
  l.find? (fun t => t.identifier == id)

/-- domFns.getTouch: look the identifier up in targetTouches, then in
changedTouches; a missing list behaves like an empty one. -/
def getTouch (e : MouseTouchEvent) (id : Int) : Option Touch :=
  match findTouch (e.targetTouches.getD []) id with
  | some t => some t
  | none => findTouch (e.changedTouches.getD []) id

/-- The offset parent's geometry: scroll offset and bounding-rect origin.
For the document body the code forces a zero origin. -/
structure Geom where
  scrollLeft : ℚ
  scrollTop : ℚ
  rectLeft : ℚ
  rectTop : ℚ
deriving DecidableEq, Repr

/-- domFns.offsetXYFromParent: client coordinate plus scroll minus rect
origin, divided by the scale factor. -/
def offsetXYFromParent (clientX clientY : ℚ) (g : Geom) (scale : ℚ) : ℚ × ℚ :=
  ((clientX + g.scrollLeft - g.rectLeft) / scale,
   (clientY + g.scrollTop - g.rectTop) / scale)

/-- The client coordinates getControlPosition will use: for a tracked touch
identifier the matching touch's coordinates (none = wrong finger, event is
dropped), for a mouse interaction the event's own coordinates. -/
def resolveTouch (e : MouseTouchEvent) (tid : Option Int) : Option (ℚ × ℚ) :=
  match tid with
  | some id =>
    match getTouch e id with
    | some t => some (t.clientX, t.clientY)
    | none => none
  | none => some (e.clientX, e.clientY)

/-- Outcome of positionFns.getControlPosition: the event is silently dropped
(wrong touch identifier), findDOMNode threw (component unmounted during the
event), or a reference-space position. -/
inductive CtrlPos where
  | dropped : CtrlPos
  | unmounted : CtrlPos
  | ok : ℚ → ℚ → CtrlPos
deriving DecidableEq, Repr

/-- positionFns.getControlPosition.  The touch-identifier check happens
before findDOMNode, so a wrong-finger event is dropped even when unmounted. -/
def getControlPosition (e : MouseTouchEvent) (tid : Option Int) (mounted : Bool)
    (g : Geom) (scale : ℚ) : CtrlPos :=
  match resolveTouch e tid with
  | none => CtrlPos.dropped
  | some c =>
    if mounted then
      CtrlPos.ok (offsetXYFromParent c.1 c.2 g scale).1 (offsetXYFromParent c.1 c.2 g scale).2
    else CtrlPos.unmounted

/-- JavaScript Math.round: round half toward positive infinity. -/
def jsRound (q : ℚ) : Int := ⌊q + 1 / 2⌋

/-- positionFns.snapToGrid: round each pending delta to the nearest grid
multiple (grid steps are nonzero in any meaningful configuration; rational
division stands in for the finite JS division). -/
def snapToGrid (grid : ℚ × ℚ) (pendingX pendingY : ℚ) : ℚ × ℚ :=
  ((jsRound (pendingX / grid.1) : ℚ) * grid.1,
   (jsRound (pendingY / grid.2) : ℚ) * grid.2)

/-- The record handed to the three lifecycle callbacks (positionFns
createCoreData / createDraggableData); the node field is omitted. -/
structure DraggableData where
  x : ℚ
  y : ℚ
  deltaX : ℚ
  deltaY : ℚ
  lastX : ℚ
  lastY : ℚ
deriving DecidableEq, Repr

/-- DraggableCore's component state plus the instance fields the handlers
consult: the mounted flag, whether document-level move/stop listeners are
attached, whether the user-select guard class is on the body, and which
event family (touch or mouse) initiated the interaction. -/
structure CoreState where
  mounted : Bool
  dragging : Bool
  lastX : Option ℚ
  lastY : Option ℚ
  touchIdentifier : Option Int
  moveStopListeners : Bool
  selectionGuard : Bool
  dragEventForTouch : Bool
deriving DecidableEq, Repr

/-- positionFns.createCoreData: a fresh-start record (zero delta) when lastX
is the NaN sentinel, otherwise deltas from the stored last position.  The
code tests isNum(state.lastX) only; lastX and lastY are always set and
cleared together, so they are matched jointly here. -/
def createCoreData (st : CoreState) (x y : ℚ) : DraggableData :=
  match st.lastX, st.lastY with
  | some lx, some ly => ⟨x, y, x - lx, y - ly, lx, ly⟩
  | _, _ => ⟨x, y, 0, 0, x, y⟩

/-- The props of DraggableCore the handlers read.  handle and cancel only
matter through whether they are configured (the match outcome is on the
event). -/
structure CoreProps where
  allowAnyClick : Bool
  disabled : Bool
  enableUserSelectHack : Bool
  scale : ℚ
  grid : Option (ℚ × ℚ)
  handle : Option String
  cancel : Option String
deriving DecidableEq, Repr

/-- What a lifecycle callback produced: its return value, whether it tore the
component down (observed through this.mounted right after the call), and the
host's successor state. -/
structure CbOut (σ : Type) where
  ret : Option Bool
  unmounts : Bool
  st : σ

/-- The onStart/onDrag/onStop props of DraggableCore, as host-state
transformers. -/
structure Callbacks (σ : Type) where
  onStart : DraggableData → σ → CbOut σ
  onDrag : DraggableData → σ → CbOut σ
  onStop : DraggableData → σ → CbOut σ

/-- Which lifecycle callback an emitted record went to. -/
inductive CbKind where
  | start : CbKind
  | drag : CbKind
  | stop : CbKind
deriving DecidableEq, Repr

/-- One callback invocation observed during a step. -/
structure CallRecord where
  kind : CbKind
  data : DraggableData
deriving DecidableEq, Repr

/-- Result of delivering one event to a handler: successor tracker state,
successor host state, the callbacks that fired (in order), and whether the
handler threw (not-mounted precondition violations). -/
structure StepResult (σ : Type) where
  core : CoreState
  host : σ
  calls : List CallRecord
  threw : Bool

/-- e.button is a number other than 0 (the only-left-clicks test). -/
def buttonNonPrimary (b : Option Int) : Bool :=
  match b with
  | some n => n != 0
  | none => false

/-- The grid branch of handleDrag: snap the delta from the last position,
suppress the move when the snapped delta is zero on both axes (skip useless
drag).  When lastX is the NaN sentinel the JS deltas are NaN, the snapped
deltas are NaN, and !NaN is true, so the move is likewise suppressed. -/
def gridAdjust (grid : Option (ℚ × ℚ)) (lastX lastY : Option ℚ) (x y : ℚ) :
    Option (ℚ × ℚ) :=
  match grid with
  | none => some (x, y)
  | some gr =>
    match lastX, lastY with
    | some lx, some ly =>
      let d := snapToGrid gr (x - lx) (y - ly)
      if d.1 = 0 ∧ d.2 = 0 then none else some (lx + d.1, ly + d.2)
    | _, _ => none

/-- The grid branch of handleDragStop: same snapping, but the move is never
suppressed and (x - lastX) || 0 turns a NaN delta into 0.  The NaN-lastX
case is unreachable there (dragging implies lastX is set); in JS it would
produce NaN coordinates, modelled here as the unsnapped position. -/
def stopGridAdjust (grid : Option (ℚ × ℚ)) (lastX lastY : Option ℚ) (x y : ℚ) :
    ℚ × ℚ :=
  match grid with
  | none => (x, y)
  | some gr =>
    match lastX, lastY with
    | some lx, some ly =>
      let d := snapToGrid gr (x - lx) (y - ly)
      (lx + d.1, ly + d.2)
    | _, _ => (x, y)

/-- The synthetic event built by handleDrag's veto path:
new MouseEvent('mouseup') has zero client coordinates and no touch lists. -/
def syntheticMouseUp : MouseTouchEvent :=
  { button := some 0, clientX := 0, clientY := 0,
    targetTouches := none, changedTouches := none,
    targetIsNode := true, matchesHandle := false, matchesCancel := false }

/-- DraggableCore.handleDragStop.  No-op unless dragging; drops the event on
a touch-identifier mismatch; invokes onStop; a stop veto (or a torn-down
component) leaves the session open; otherwise removes the user-select guard,
resets dragging and the last position, and detaches the document listeners.
The touchIdentifier is never reset here. -/
def handleDragStop {σ : Type} (p : CoreProps) (cbs : Callbacks σ) (g : Geom)
    (e : MouseTouchEvent) (st : CoreState) (h : σ) : StepResult σ :=
  if st.dragging = false then ⟨st, h, [], false⟩
  else
    match getControlPosition e st.touchIdentifier st.mounted g p.scale with
    | CtrlPos.dropped => ⟨st, h, [], false⟩
    | CtrlPos.unmounted => ⟨st, h, [], true⟩
    | CtrlPos.ok x0 y0 =>
      let xy := stopGridAdjust p.grid st.lastX st.lastY x0 y0
      let coreEvent := createCoreData st xy.1 xy.2
      let out := cbs.onStop coreEvent h
      let st2 := { st with mounted := st.mounted && !out.unmounts }
      if out.ret = some false ∨ st2.mounted = false then
        ⟨st2, out.st, [⟨CbKind.stop, coreEvent⟩], false⟩
      else
        ⟨{ st2 with
            dragging := false, lastX := none, lastY := none,
            selectionGuard := if p.enableUserSelectHack then false else st2.selectionGuard,
            moveStopListeners := false },
          out.st, [⟨CbKind.stop, coreEvent⟩], false⟩

/-- DraggableCore.handleDrag.  Resolves the position (dropping wrong-finger
events), applies the grid branch, builds the core data, invokes onDrag; on a
veto or a torn-down component it force-stops through handleDragStop with a
synthetic mouseup (the old-browser fallback event is identical), otherwise
commits the new last position.  Note: there is no dragging guard here. -/
def handleDrag {σ : Type} (p : CoreProps) (cbs : Callbacks σ) (g : Geom)
    (e : MouseTouchEvent) (st : CoreState) (h : σ) : StepResult σ :=
  match getControlPosition e st.touchIdentifier st.mounted g p.scale with
  | CtrlPos.dropped => ⟨st, h, [], false⟩
  | CtrlPos.unmounted => ⟨st, h, [], true⟩
  | CtrlPos.ok x0 y0 =>
    match gridAdjust p.grid st.lastX st.lastY x0 y0 with
    | none => ⟨st, h, [], false⟩
    | some xy =>
      let coreEvent := createCoreData st xy.1 xy.2
      let out := cbs.onDrag coreEvent h
      let st2 := { st with mounted := st.mounted && !out.unmounts }
      if out.ret = some false ∨ st2.mounted = false then
        let r := handleDragStop p cbs g syntheticMouseUp st2 out.st
        ⟨r.core, r.host, ⟨CbKind.drag, coreEvent⟩ :: r.calls, r.threw⟩
      else
        ⟨{ st2 with lastX := some xy.1, lastY := some xy.2 },
          out.st, [⟨CbKind.drag, coreEvent⟩], false⟩

/-- DraggableCore.handleDragStart.  Only-left-click filter; not-mounted is a
thrown precondition violation; disabled / non-node target / handle and
cancel selector short circuits; then the fresh touch identifier is committed
to state BEFORE the start callback runs, so a vetoed start still overwrites
it.  A veto (or torn-down component) leaves everything else untouched;
otherwise the guard is applied, the session opens with the current position
as last position, and document move/stop listeners are attached. -/
def handleDragStart {σ : Type} (p : CoreProps) (cbs : Callbacks σ) (g : Geom)
    (e : MouseTouchEvent) (st : CoreState) (h : σ) : StepResult σ :=
  if p.allowAnyClick = false ∧ buttonNonPrimary e.button = true then ⟨st, h, [], false⟩
  else if st.mounted = false then ⟨st, h, [], true⟩
  else if p.disabled = true ∨ e.targetIsNode = false
      ∨ (p.handle.isSome ∧ e.matchesHandle = false)
      ∨ (p.cancel.isSome ∧ e.matchesCancel = true) then ⟨st, h, [], false⟩
  else
    let touchIdentifier := getTouchIdentifier e
    let st1 := { st with touchIdentifier := touchIdentifier }
    match getControlPosition e touchIdentifier st1.mounted g p.scale with
    | CtrlPos.dropped => ⟨st1, h, [], false⟩
    | CtrlPos.unmounted => ⟨st1, h, [], true⟩
    | CtrlPos.ok x y =>
      let coreEvent := createCoreData st1 x y
      let out := cbs.onStart coreEvent h
      let st2 := { st1 with mounted := st1.mounted && !out.unmounts }
      if out.ret = some false ∨ st2.mounted = false then
        ⟨st2, out.st, [⟨CbKind.start, coreEvent⟩], false⟩
      else
        ⟨{ st2 with
            dragging := true, lastX := some x, lastY := some y,
            selectionGuard := if p.enableUserSelectHack then true else st2.selectionGuard,
            moveStopListeners := true },
          out.st, [⟨CbKind.start, coreEvent⟩], false⟩

/-- DraggableCore.onMouseDown: remember the mouse event family, then start. -/
def onMouseDown {σ : Type} (p : CoreProps) (cbs : Callbacks σ) (g : Geom)
    (e : MouseTouchEvent) (st : CoreState) (h : σ) : StepResult σ :=
  handleDragStart p cbs g e { st with dragEventForTouch := false } h

/-- DraggableCore.onTouchStart: remember the touch event family, then start. -/
def onTouchStart {σ : Type} (p : CoreProps) (cbs : Callbacks σ) (g : Geom)
    (e : MouseTouchEvent) (st : CoreState) (h : σ) : StepResult σ :=
  handleDragStart p cbs g e { st with dragEventForTouch := true } h

/-- DraggableCore.onMouseUp: remember the mouse event family, then stop. -/
def onMouseUp {σ : Type} (p : CoreProps) (cbs : Callbacks σ) (g : Geom)
    (e : MouseTouchEvent) (st : CoreState) (h : σ) : StepResult σ :=
  handleDragStop p cbs g e { st with dragEventForTouch := false } h

/-- DraggableCore.onTouchEnd: remember the touch event family, then stop. -/
def onTouchEnd {σ : Type} (p : CoreProps) (cbs : Callbacks σ) (g : Geom)
    (e : MouseTouchEvent) (st : CoreState) (h : σ) : StepResult σ :=
  handleDragStop p cbs g e { st with dragEventForTouch := true } h

/-- A numeric bounds rectangle; each side is optional (isNum test in
getBoundPosition). -/
structure Bounds where
  left : Option ℚ
  top : Option ℚ
  right : Option ℚ
  bottom : Option ℚ
deriving DecidableEq, Repr

/-- positionFns.getBoundPosition for resolved numeric bounds: no bounds is
the identity, otherwise clamp below the right/bottom limits first (min),
then above the left/top limits (max), independently per axis.  The
string-selector form resolves to such a rectangle by DOM measurement before
these clamps run and is outside this model. -/
def getBoundPosition (bounds : Option Bounds) (x y : ℚ) : ℚ × ℚ :=
  match bounds with
  | none => (x, y)
  | some b =>
    let x1 := match b.right with | some r => min x r | none => x
    let y1 := match b.bottom with | some v => min y v | none => y
    let x2 := match b.left with | some l => max x1 l | none => x1
    let y2 := match b.top with | some t => max y1 t | none => y1
    (x2, y2)

/-- Draggable's component state (the fields its three handlers read and
write; prevPropsPosition and isElementSVG only matter to rendering and
derived-state and are omitted). -/
structure DraggableState where
  dragging : Bool
  dragged : Bool
  x : ℚ
  y : ℚ
  slackX : ℚ
  slackY : ℚ
deriving DecidableEq, Repr

/-- The Draggable props its handlers read (axis only affects rendering). -/
structure DraggableProps where
  bounds : Option Bounds
  position : Option (ℚ × ℚ)
  scale : ℚ
deriving DecidableEq, Repr

/-- positionFns.createDraggableData: provisional position = visible position
plus core delta divided by scale; lastX/lastY are the visible position. -/
def createDraggableData (p : DraggableProps) (s : DraggableState)
    (cd : DraggableData) : DraggableData :=
  ⟨s.x + cd.deltaX / p.scale, s.y + cd.deltaY / p.scale,
   cd.deltaX / p.scale, cd.deltaY / p.scale, s.x, s.y⟩

/-- Result of one Draggable handler: its return value (false is the veto the
core sees), the successor Draggable state, and the record it passed to the
host callback (none when the host was never called). -/
structure DragStep where
  ret : Option Bool
  st : DraggableState
  emitted : Option DraggableData

/-- Draggable.onDragStart: build the draggable data, let the host decide; a
host veto returns false to the core (so no session opens); otherwise mark
dragging and dragged. -/
def draggableOnDragStart (p : DraggableProps) (hostOnStart : DraggableData → Option Bool)
    (coreData : DraggableData) (s : DraggableState) : DragStep :=
  let d := createDraggableData p s coreData
  let ret := hostOnStart d
  if ret = some false then ⟨some false, s, some d⟩
  else ⟨none, { s with dragging := true, dragged := true }, some d⟩

/-- Draggable.onDrag: returns false when not dragging; computes the
provisional position; with bounds configured adds the current slack, clamps
through getBoundPosition, accumulates the shaved-off amount into the slack
and rewrites the outgoing record to the clamped result; a host veto returns
false without committing the new state. -/
def draggableOnDrag (p : DraggableProps) (hostOnDrag : DraggableData → Option Bool)
    (coreData : DraggableData) (s : DraggableState) : DragStep :=
  if s.dragging = false then ⟨some false, s, none⟩
  else
    let uiData := createDraggableData p s coreData
    let adj : DraggableData × DraggableState :=
      match p.bounds with
      | none => (uiData, { s with x := uiData.x, y := uiData.y })
      | some _ =>
        let x := uiData.x
        let y := uiData.y
        let b := getBoundPosition p.bounds (x + s.slackX) (y + s.slackY)
        let slackX2 := s.slackX + (x - b.1)
        let slackY2 := s.slackY + (y - b.2)
        ({ uiData with x := b.1, y := b.2, deltaX := b.1 - s.x, deltaY := b.2 - s.y },
         { s with x := b.1, y := b.2, slackX := slackX2, slackY := slackY2 })
    let ret := hostOnDrag adj.1
    if ret = some false then ⟨some false, s, some adj.1⟩
    else ⟨none, adj.2, some adj.1⟩

/-- Draggable.onDragStop: returns false when not dragging; a host veto keeps
the state; otherwise close the drag, zero the slack, and in controlled mode
snap the visible position back to the host-supplied one. -/
def draggableOnDragStop (p : DraggableProps) (hostOnStop : DraggableData → Option Bool)
    (coreData : DraggableData) (s : DraggableState) : DragStep :=
  if s.dragging = false then ⟨some false, s, none⟩
  else
    let d := createDraggableData p s coreData
    let ret := hostOnStop d
    if ret = some false then ⟨some false, s, some d⟩
    else
      let base := { s with dragging := false, slackX := 0, slackY := 0 }
      match p.position with
      | some pos => ⟨none, { base with x := pos.1, y := pos.2 }, some d⟩
      | none => ⟨none, base, some d⟩

/-- The host's own callbacks, as pure deciders on the emitted record. -/
structure HostCallbacks where
  onStart : DraggableData → Option Bool
  onDrag : DraggableData → Option Bool
  onStop : DraggableData → Option Bool

/-- Draggable wired up as the core's callbacks (render passes onDragStart /
onDrag / onDragStop as the DraggableCore props); Draggable itself never
unmounts the core from inside a callback. -/
def draggableCallbacks (p : DraggableProps) (host : HostCallbacks) :
    Callbacks DraggableState :=
  { onStart := fun d s => let r := draggableOnDragStart p host.onStart d s
      ⟨r.ret, false, r.st⟩
    onDrag := fun d s => let r := draggableOnDrag p host.onDrag d s
      ⟨r.ret, false, r.st⟩
    onStop := fun d s => let r := draggableOnDragStop p host.onStop d s
      ⟨r.ret, false, r.st⟩ }

/-- Deliver a list of move events in order, accumulating emitted callbacks. -/
def runMoves {σ : Type} (p : CoreProps) (cbs : Callbacks σ) (g : Geom) :
    List MouseTouchEvent → CoreState → σ → StepResult σ
  | [], st, h => ⟨st, h, [], false⟩
  | e :: es, st, h =>
    let r := handleDrag p cbs g e st h
    let r2 := runMoves p cbs g es r.core r.host
    ⟨r2.core, r2.host, r.calls ++ r2.calls, r.threw || r2.threw⟩

/-- A full session: one start event, a list of move events, one stop event. -/
def runSession {σ : Type} (p : CoreProps) (cbs : Callbacks σ) (g : Geom)
    (e0 : MouseTouchEvent) (es : List MouseTouchEvent) (eS : MouseTouchEvent)
    (st : CoreState) (h : σ) : StepResult σ :=
  let r0 := handleDragStart p cbs g e0 st h
  let r1 := runMoves p cbs g es r0.core r0.host
  let r2 := handleDragStop p cbs g eS r1.core r1.host
  ⟨r2.core, r2.host, r0.calls ++ (r1.calls ++ r2.calls), r0.threw || r1.threw || r2.threw⟩

/-- Sum of the deltaX fields of a list of emitted records. -/
def sumDeltaX (l : List CallRecord) : ℚ := (l.map (fun c => c.data.deltaX)).sum

/-- Sum of the deltaY fields of a list of emitted records. -/
def sumDeltaY (l : List CallRecord) : ℚ := (l.map (fun c => c.data.deltaY)).sum

/-- Only the records that went to the move callback. -/
def dragOnly (l : List CallRecord) : List CallRecord :=
  l.filter (fun c => c.kind == CbKind.drag)

/-- The position an event resolves to in reference space (mouse family). -/
def posOf (g : Geom) (scale : ℚ) (e : MouseTouchEvent) : ℚ × ℚ :=
  offsetXYFromParent e.clientX e.clientY g scale

/-- The last resolved position of a list of events, starting from a default. -/
def finalPos (g : Geom) (scale : ℚ) (es : List MouseTouchEvent) (p0 : ℚ × ℚ) : ℚ × ℚ :=
  es.foldl (fun _ e => posOf g scale e) p0

/-! ## Concrete fixtures for witnesses and counterexamples -/

/-- A geometry with zero scroll and zero rect origin (the body case). -/
def zeroGeom : Geom := ⟨0, 0, 0, 0⟩

/-- A left-button mouse event at given client coordinates. -/
def mouseEventAt (x y : ℚ) : MouseTouchEvent :=
  ⟨some 0, x, y, none, none, true, false, false⟩

/-- Default-ish core props: left click only, enabled, scale 1, no grid. -/
def baseCoreProps : CoreProps := ⟨false, false, true, 1, none, none, none⟩

/-- Core props with a 10 by 10 snapping grid. -/
def gridCoreProps : CoreProps := ⟨false, false, true, 1, some (10, 10), none, none⟩

/-- Mounted, idle tracker state (the state right after mounting). -/
def idleCoreState : CoreState := ⟨true, false, none, none, none, false, false, false⟩

/-- A mounted, mouse-initiated active session at a given last position. -/
def activeMouseState (lx ly : ℚ) : CoreState :=
  ⟨true, true, some lx, some ly, none, true, true, false⟩

/-- A mounted, touch-initiated active session tracking identifier t. -/
def activeTouchState (t : Int) (lx ly : ℚ) : CoreState :=
  ⟨true, true, some lx, some ly, some t, true, true, true⟩

/-- Callbacks that never veto and never unmount, over a unit host state. -/
def trivialCbs : Callbacks Unit :=
  ⟨fun _ _ => ⟨none, false, ()⟩, fun _ _ => ⟨none, false, ()⟩, fun _ _ => ⟨none, false, ()⟩⟩

/-- Callbacks that count their invocations in the host state. -/
def countingCbs : Callbacks Nat :=
  ⟨fun _ n => ⟨none, false, n + 1⟩, fun _ n => ⟨none, false, n + 1⟩,
   fun _ n => ⟨none, false, n + 1⟩⟩

/-- Callbacks whose move callback always vetoes. -/
def vetoDragCbs : Callbacks Unit :=
  ⟨fun _ _ => ⟨none, false, ()⟩, fun _ _ => ⟨some false, false, ()⟩,
   fun _ _ => ⟨none, false, ()⟩⟩

/-- Callbacks whose start callback always vetoes. -/
def vetoStartCbs : Callbacks Unit :=
  ⟨fun _ _ => ⟨some false, false, ()⟩, fun _ _ => ⟨none, false, ()⟩,
   fun _ _ => ⟨none, false, ()⟩⟩

/-- Callbacks whose stop callback always vetoes. -/
def vetoStopCbs : Callbacks Unit :=
  ⟨fun _ _ => ⟨none, false, ()⟩, fun _ _ => ⟨none, false, ()⟩,
   fun _ _ => ⟨some false, false, ()⟩⟩

/-- A touch-move event carrying only the finger with identifier 7. -/
def touchMoveEvent7 : MouseTouchEvent :=
  ⟨none, 0, 0, some [⟨7, 30, 40⟩], none, true, false, false⟩

/-- A touch-move event carrying only the finger with identifier 9. -/
def touchMoveEvent9 : MouseTouchEvent :=
  ⟨none, 0, 0, some [⟨9, 30, 40⟩], none, true, false, false⟩

/-- Host callbacks for the Draggable layer that never veto. -/
def noneHost : HostCallbacks := ⟨fun _ => none, fun _ => none, fun _ => none⟩

/-- Host callbacks whose move callback always vetoes. -/
def vetoDragHost : HostCallbacks := ⟨fun _ => none, fun _ => some false, fun _ => none⟩

/-- A numeric bounds rectangle constraining only the x axis. -/
def boundsLR (l r : ℚ) : Bounds := ⟨some l, none, some r, none⟩

/-- Uncontrolled Draggable props with x bounded to the interval 0..100. -/
def c3Props : DraggableProps := ⟨some (boundsLR 0 100), none, 1⟩

/-- Draggable state pinned at the right bound with 50 of accumulated slack. -/
def c3DragState : DraggableState := ⟨true, true, 100, 0, 50, 0⟩

/-! ## Helper lemmas -/

/-- If neither touch list of an event carries identifier t, getTouch fails. -/
theorem getTouch_eq_none (e : MouseTouchEvent) (t : Int)
    (h1 : ∀ tch ∈ e.targetTouches.getD [], tch.identifier ≠ t)
    (h2 : ∀ tch ∈ e.changedTouches.getD [], tch.identifier ≠ t) :
    getTouch e t = none := by
  unfold getTouch findTouch
  have f1 : (e.targetTouches.getD []).find? (fun tch => tch.identifier == t) = none := by
    rw [List.find?_eq_none]
    intro tch hm
    simpa using h1 tch hm
  have f2 : (e.changedTouches.getD []).find? (fun tch => tch.identifier == t) = none := by
    rw [List.find?_eq_none]
    intro tch hm
    simpa using h2 tch hm
  rw [f1, f2]

/-- A wrong-finger event is dropped by getControlPosition. -/
theorem getControlPosition_dropped (e : MouseTouchEvent) (t : Int) (mounted : Bool)
    (g : Geom) (scale : ℚ)
    (h1 : ∀ tch ∈ e.targetTouches.getD [], tch.identifier ≠ t)
    (h2 : ∀ tch ∈ e.changedTouches.getD [], tch.identifier ≠ t) :
    getControlPosition e (some t) mounted g scale = CtrlPos.dropped := by
  unfold getControlPosition resolveTouch
  simp [getTouch_eq_none e t h1 h2]

/-- Without a tracked identifier, a mounted tracker always resolves the
event's own coordinates. -/
theorem getControlPosition_mouse (e : MouseTouchEvent) (g : Geom) (scale : ℚ) :
    getControlPosition e none true g scale =
      CtrlPos.ok (posOf g scale e).1 (posOf g scale e).2 := by
  unfold getControlPosition resolveTouch posOf
  simp

/-- The identifier freshly taken from an event always resolves on that same
event (the position == null branch of handleDragStart is unreachable). -/
theorem resolveTouch_fresh (e : MouseTouchEvent) :
    (resolveTouch e (getTouchIdentifier e)).isSome = true := by
  unfold resolveTouch getTouchIdentifier getTouch findTouch
  cases ht : e.targetTouches.getD [] with
  | nil =>
    cases hc : e.changedTouches.getD [] with
    | nil => simp
    | cons c cs => simp [List.find?]
  | cons a as => simp [List.find?]

/-- A move whose position resolves but whose snapped grid delta is zero is
suppressed without touching any state. -/
theorem handleDrag_suppressed {σ : Type} (p : CoreProps) (cbs : Callbacks σ)
    (g : Geom) (e : MouseTouchEvent) (st : CoreState) (h : σ) (x y : ℚ)
    (hpos : getControlPosition e st.touchIdentifier st.mounted g p.scale = CtrlPos.ok x y)
    (hgrid : gridAdjust p.grid st.lastX st.lastY x y = none) :
    handleDrag p cbs g e st h = ⟨st, h, [], false⟩ := by
  unfold handleDrag
  simp only [hpos, hgrid]

/-- A delta of (3,3) snaps to zero on a 10 by 10 grid. -/
theorem snapToGrid_three : snapToGrid (10, 10) 3 3 = (0, 0) := by
  unfold snapToGrid jsRound
  norm_num

/-- A delta of (4,4) snaps to zero on a 10 by 10 grid. -/
theorem snapToGrid_four : snapToGrid (10, 10) 4 4 = (0, 0) := by
  unfold snapToGrid jsRound
  norm_num

/-- A raw (3,3) delta from the committed position is suppressed by the grid. -/
theorem gridAdjust_delta_three (lx ly : ℚ) :
    gridAdjust (some (10, 10)) (some lx) (some ly) (lx + 3) (ly + 3) = none := by
  have e1 : lx + 3 - lx = 3 := by ring
  have e2 : ly + 3 - ly = 3 := by ring
  simp [gridAdjust, e1, e2, snapToGrid_three]

/-- A raw (4,4) delta from the committed position is suppressed by the grid. -/
theorem gridAdjust_delta_four (lx ly : ℚ) :
    gridAdjust (some (10, 10)) (some lx) (some ly) (lx + 4) (ly + 4) = none := by
  have e1 : lx + 4 - lx = 4 := by ring
  have e2 : ly + 4 - ly = 4 := by ring
  simp [gridAdjust, e1, e2, snapToGrid_four]

/-! ## Claim theorems -/

/-- Claim C10: getBoundPosition clamps below the right/bottom limits (min)
before clamping above the left/top limits (max); hence for an inverted
rectangle with left greater than right every input x lands on the left bound
(and top/bottom behave symmetrically), and with no bounds configured the
input position is returned unchanged. -/
theorem c10_bound_position_order :
    (∀ (b : Bounds) (l r x y : ℚ), b.left = some l → b.right = some r → r < l →
      (getBoundPosition (some b) x y).1 = l) ∧
    (∀ (b : Bounds) (t v x y : ℚ), b.top = some t → b.bottom = some v → v < t →
      (getBoundPosition (some b) x y).2 = t) ∧
    (∀ x y : ℚ, getBoundPosition none x y = (x, y)) := by
  refine ⟨?_, ?_, fun x y => rfl⟩
  · intro b l r x y hl hr hlt
    simp only [getBoundPosition, hl, hr]
    exact max_eq_right (le_of_lt (lt_of_le_of_lt (min_le_right x r) hlt))
  · intro b t v x y ht hv hlt
    simp only [getBoundPosition, ht, hv]
    exact max_eq_right (le_of_lt (lt_of_le_of_lt (min_le_right y v) hlt))

/-- Witness for C10 at the inverted rectangle left 5, right 2 and input 10. -/
theorem c10_bound_position_order_witness :
    (boundsLR 5 2).left = some 5 ∧ (boundsLR 5 2).right = some 2 ∧ (2 : ℚ) < 5 ∧
    (getBoundPosition (some (boundsLR 5 2)) 10 0).1 = 5 :=
  ⟨rfl, rfl, by norm_num,
    c10_bound_position_order.1 (boundsLR 5 2) 5 2 10 0 rfl rfl (by norm_num)⟩

/-- Claim C7: during an active touch session tracking identifier t, a move or
stop event none of whose touches carries identifier t is silently dropped:
no callback fires, and the tracker state, host state, dragging flag and
visible position are all unchanged. -/
theorem c7_touch_identifier_isolation {σ : Type} (p : CoreProps) (cbs : Callbacks σ)
    (g : Geom) (e : MouseTouchEvent) (st : CoreState) (h : σ) (t : Int)
    (hdrag : st.dragging = true)
    (htid : st.touchIdentifier = some t)
    (h1 : ∀ tch ∈ e.targetTouches.getD [], tch.identifier ≠ t)
    (h2 : ∀ tch ∈ e.changedTouches.getD [], tch.identifier ≠ t) :
    handleDrag p cbs g e st h = ⟨st, h, [], false⟩ ∧
    handleDragStop p cbs g e st h = ⟨st, h, [], false⟩ := by
  have hdr : getControlPosition e st.touchIdentifier st.mounted g p.scale = CtrlPos.dropped := by
    rw [htid]; exact getControlPosition_dropped e t st.mounted g p.scale h1 h2
  constructor
  · unfold handleDrag; simp only [hdr]
  · unfold handleDragStop; simp [hdr, hdrag]

/-- Witness for C7: a session tracking finger 5 ignores a move from finger 9. -/
theorem c7_touch_identifier_isolation_witness :
    (activeTouchState 5 0 0).dragging = true ∧
    (activeTouchState 5 0 0).touchIdentifier = some 5 ∧
    (∀ tch ∈ touchMoveEvent9.targetTouches.getD [], tch.identifier ≠ 5) ∧
    handleDrag baseCoreProps trivialCbs zeroGeom touchMoveEvent9 (activeTouchState 5 0 0) () =
      ⟨activeTouchState 5 0 0, (), [], false⟩ :=
  ⟨rfl, rfl, by decide,
    (c7_touch_identifier_isolation baseCoreProps trivialCbs zeroGeom touchMoveEvent9
      (activeTouchState 5 0 0) () 5 rfl rfl (by decide) (by decide)).1⟩

/-- Claim C1: with grid [10,10] and an active session at committed position
(lx, ly), every move event whose raw delta from the committed position is
(3,3) is suppressed, so over any sequence of such events no move callback
ever fires and the tracker state is unchanged (in particular the callback
fires only when the accumulated unsnapped delta reaches a grid multiple,
vacuously); and a single move whose raw delta is (4,4) likewise invokes no
callback and leaves lastX/lastY and all other tracker state unchanged. -/
theorem c1_grid_snap_suppression {σ : Type} (p : CoreProps) (cbs : Callbacks σ)
    (g : Geom) (st : CoreState) (h : σ) (lx ly : ℚ)
    (hgrid : p.grid = some (10, 10))
    (_hdrag : st.dragging = true)
    (hlx : st.lastX = some lx) (hly : st.lastY = some ly) :
    (∀ es : List MouseTouchEvent,
      (∀ e ∈ es, getControlPosition e st.touchIdentifier st.mounted g p.scale =
        CtrlPos.ok (lx + 3) (ly + 3)) →
      runMoves p cbs g es st h = ⟨st, h, [], false⟩) ∧
    (∀ e : MouseTouchEvent,
      getControlPosition e st.touchIdentifier st.mounted g p.scale =
        CtrlPos.ok (lx + 4) (ly + 4) →
      handleDrag p cbs g e st h = ⟨st, h, [], false⟩) := by
  have key3 : gridAdjust p.grid st.lastX st.lastY (lx + 3) (ly + 3) = none := by
    rw [hgrid, hlx, hly]; exact gridAdjust_delta_three lx ly
  have key4 : gridAdjust p.grid st.lastX st.lastY (lx + 4) (ly + 4) = none := by
    rw [hgrid, hlx, hly]; exact gridAdjust_delta_four lx ly
  constructor
  · intro es
    induction es with
    | nil => intro _; rfl
    | cons e es ih =>
      intro hes
      have h1 := handleDrag_suppressed p cbs g e st h _ _ (hes e (by simp)) key3
      have h2 := ih (fun e' he' => hes e' (by simp [he']))
      simp [runMoves, h1, h2]
  · intro e hpos
    exact handleDrag_suppressed p cbs g e st h _ _ hpos key4

/-- Witness for C1: one (3,3) move on the 10 by 10 grid is fully suppressed. -/
theorem c1_grid_snap_suppression_witness :
    gridCoreProps.grid = some (10, 10) ∧
    runMoves gridCoreProps trivialCbs zeroGeom [mouseEventAt 3 3]
      (activeMouseState 0 0) () = ⟨activeMouseState 0 0, (), [], false⟩ :=
  ⟨rfl,
    (c1_grid_snap_suppression gridCoreProps trivialCbs zeroGeom (activeMouseState 0 0) () 0 0
      rfl rfl rfl rfl).1 [mouseEventAt 3 3]
      (by
        intro e he
        simp only [List.mem_singleton] at he
        subst he
        norm_num [getControlPosition, resolveTouch, offsetXYFromParent, mouseEventAt,
          activeMouseState, zeroGeom, gridCoreProps])⟩

/-- A position can only resolve to ok when the component is mounted. -/
theorem mounted_of_ok (e : MouseTouchEvent) (tid : Option Int) (mounted : Bool)
    (g : Geom) (scale : ℚ) (x y : ℚ)
    (h : getControlPosition e tid mounted g scale = CtrlPos.ok x y) : mounted = true := by
  unfold getControlPosition at h
  cases hr : resolveTouch e tid with
  | none => rw [hr] at h; exact absurd h (by simp)
  | some c =>
    rw [hr] at h
    by_cases hm : mounted = true
    · exact hm
    · simp [hm] at h

/-- Claim C9: a drag-start that passes the button/disabled/selector guards
commits the freshly resolved touch identifier to state before the start
callback's veto is checked, so after a vetoed start the touchIdentifier has
been overwritten with the new event's identifier while dragging, lastX/lastY,
the listeners and the selection guard are all unchanged. -/
theorem c9_vetoed_start_commits_identifier {σ : Type} (p : CoreProps) (cbs : Callbacks σ)
    (g : Geom) (e : MouseTouchEvent) (st : CoreState) (h : σ)
    (hbtn : e.button = some 0)
    (hm : st.mounted = true)
    (hdis : p.disabled = false) (htarget : e.targetIsNode = true)
    (hhandle : p.handle = none) (hcancel : p.cancel = none)
    (hveto : ∀ d s, (cbs.onStart d s).ret = some false)
    (hnu : ∀ d s, (cbs.onStart d s).unmounts = false) :
    (handleDragStart p cbs g e st h).core.touchIdentifier = getTouchIdentifier e ∧
    (handleDragStart p cbs g e st h).core.dragging = st.dragging ∧
    (handleDragStart p cbs g e st h).core.lastX = st.lastX ∧
    (handleDragStart p cbs g e st h).core.lastY = st.lastY ∧
    (handleDragStart p cbs g e st h).core.moveStopListeners = st.moveStopListeners ∧
    (handleDragStart p cbs g e st h).core.selectionGuard = st.selectionGuard ∧
    (handleDragStart p cbs g e st h).core.mounted = true ∧
    (∃ d, (handleDragStart p cbs g e st h).calls = [⟨CbKind.start, d⟩]) ∧
    (handleDragStart p cbs g e st h).threw = false := by
  obtain ⟨c, hc⟩ := Option.isSome_iff_exists.mp (resolveTouch_fresh e)
  unfold handleDragStart
  simp [hbtn, buttonNonPrimary, hm, hdis, htarget, hhandle, hcancel,
    getControlPosition, hc, hveto, hnu]

/-- Witness for C9: a vetoed mouse start still stores the (empty) identifier
and changes nothing else. -/
theorem c9_vetoed_start_commits_identifier_witness :
    idleCoreState.mounted = true ∧
    (handleDragStart baseCoreProps vetoStartCbs zeroGeom (mouseEventAt 8 9)
      idleCoreState ()).core.touchIdentifier = getTouchIdentifier (mouseEventAt 8 9) ∧
    (handleDragStart baseCoreProps vetoStartCbs zeroGeom (mouseEventAt 8 9)
      idleCoreState ()).core.dragging = idleCoreState.dragging :=
  ⟨rfl,
    (c9_vetoed_start_commits_identifier baseCoreProps vetoStartCbs zeroGeom (mouseEventAt 8 9)
      idleCoreState () rfl rfl rfl rfl rfl rfl (fun _ _ => rfl) (fun _ _ => rfl)).1,
    (c9_vetoed_start_commits_identifier baseCoreProps vetoStartCbs zeroGeom (mouseEventAt 8 9)
      idleCoreState () rfl rfl rfl rfl rfl rfl (fun _ _ => rfl) (fun _ _ => rfl)).2.1⟩

/-- Claim C5: the stop veto is asymmetric.  If the stop callback returns the
explicit false the session stays open (dragging stays true, lastX/lastY are
not reset, listeners and guard untouched); if it does not veto the session
closes (dragging false, lastX/lastY reset to the NaN sentinel, selection
guard removed when the hack is enabled, document listeners detached). -/
theorem c5_stop_veto_asymmetry {σ : Type} (p : CoreProps) (g : Geom) :
    (∀ (cbs : Callbacks σ) (st : CoreState) (h : σ) (e : MouseTouchEvent) (x y : ℚ),
      st.dragging = true →
      getControlPosition e st.touchIdentifier st.mounted g p.scale = CtrlPos.ok x y →
      (∀ d s, (cbs.onStop d s).ret = some false) →
      (∀ d s, (cbs.onStop d s).unmounts = false) →
      (handleDragStop p cbs g e st h).core.dragging = true ∧
      (handleDragStop p cbs g e st h).core.lastX = st.lastX ∧
      (handleDragStop p cbs g e st h).core.lastY = st.lastY ∧
      (handleDragStop p cbs g e st h).core.moveStopListeners = st.moveStopListeners ∧
      (handleDragStop p cbs g e st h).core.selectionGuard = st.selectionGuard ∧
      (handleDragStop p cbs g e st h).threw = false) ∧
    (∀ (cbs : Callbacks σ) (st : CoreState) (h : σ) (e : MouseTouchEvent) (x y : ℚ),
      st.dragging = true →
      getControlPosition e st.touchIdentifier st.mounted g p.scale = CtrlPos.ok x y →
      (∀ d s, (cbs.onStop d s).ret ≠ some false) →
      (∀ d s, (cbs.onStop d s).unmounts = false) →
      (handleDragStop p cbs g e st h).core.dragging = false ∧
      (handleDragStop p cbs g e st h).core.lastX = none ∧
      (handleDragStop p cbs g e st h).core.lastY = none ∧
      (handleDragStop p cbs g e st h).core.moveStopListeners = false ∧
      (p.enableUserSelectHack = true →
        (handleDragStop p cbs g e st h).core.selectionGuard = false) ∧
      (handleDragStop p cbs g e st h).threw = false) := by
  constructor
  · intro cbs st h e x y hdrag hpos hret hnu
    unfold handleDragStop
    simp [hdrag, hpos, hret, hnu]
  · intro cbs st h e x y hdrag hpos hret hnu
    have hm := mounted_of_ok e st.touchIdentifier st.mounted g p.scale x y hpos
    rw [hm] at hpos
    unfold handleDragStop
    simp [hdrag, hpos, hret, hnu, hm]
    try (intro hhack; simp [hhack])

/-- Witness for C5: a vetoed stop keeps dragging true, an unvetoed one
clears it. -/
theorem c5_stop_veto_asymmetry_witness :
    (activeMouseState 2 3).dragging = true ∧
    (handleDragStop baseCoreProps vetoStopCbs zeroGeom (mouseEventAt 7 7)
      (activeMouseState 2 3) ()).core.dragging = true ∧
    (handleDragStop baseCoreProps trivialCbs zeroGeom (mouseEventAt 7 7)
      (activeMouseState 2 3) ()).core.dragging = false :=
  ⟨rfl,
    ((c5_stop_veto_asymmetry baseCoreProps zeroGeom).1 vetoStopCbs (activeMouseState 2 3) ()
      (mouseEventAt 7 7) 7 7 rfl
      (by norm_num [getControlPosition, resolveTouch, offsetXYFromParent, mouseEventAt,
        activeMouseState, zeroGeom, baseCoreProps])
      (fun _ _ => rfl) (fun _ _ => rfl)).1,
    ((c5_stop_veto_asymmetry baseCoreProps zeroGeom).2 trivialCbs (activeMouseState 2 3) ()
      (mouseEventAt 7 7) 7 7 rfl
      (by norm_num [getControlPosition, resolveTouch, offsetXYFromParent, mouseEventAt,
        activeMouseState, zeroGeom, baseCoreProps])
      (fun _ _ hc => Option.noConfusion hc) (fun _ _ => rfl)).1⟩

/-- Counterexample to claim C8: delivering a move event while no session is
active (dragging false, idle last position) is NOT a no-op: the move
callback fires once (the host counter increments to 1) and lastX is
overwritten, because handleDrag never consults the dragging flag. -/
theorem c8_idle_move_counterexample :
    idleCoreState.dragging = false ∧
    (handleDrag baseCoreProps countingCbs zeroGeom (mouseEventAt 5 5) idleCoreState 0).calls ≠ [] ∧
    (handleDrag baseCoreProps countingCbs zeroGeom (mouseEventAt 5 5) idleCoreState 0).core.lastX ≠
      idleCoreState.lastX ∧
    (handleDrag baseCoreProps countingCbs zeroGeom (mouseEventAt 5 5) idleCoreState 0).host = 1 := by
  norm_num [handleDrag, handleDragStop, getControlPosition, resolveTouch,
    offsetXYFromParent, gridAdjust, createCoreData, baseCoreProps, countingCbs,
    zeroGeom, mouseEventAt, idleCoreState]
  simp

/-- Amended claim C8: the move handler has no session guard.  With no grid
configured, a move event delivered while idle (dragging false, NaN last
position) that resolves to (x, y) invokes the move callback exactly once
with a zero-delta fresh-start record and commits lastX/lastY to (x, y),
while dragging, the listeners and the touch identifier stay unchanged.
(The stop handler is the only one that checks the dragging flag.) -/
theorem c8_idle_move_fresh_start {σ : Type} (p : CoreProps) (cbs : Callbacks σ)
    (g : Geom) (e : MouseTouchEvent) (st : CoreState) (h : σ) (x y : ℚ)
    (hdrag : st.dragging = false)
    (hlx : st.lastX = none) (hly : st.lastY = none)
    (hgrid : p.grid = none)
    (hpos : getControlPosition e st.touchIdentifier st.mounted g p.scale = CtrlPos.ok x y)
    (hret : ∀ d s, (cbs.onDrag d s).ret ≠ some false)
    (hnu : ∀ d s, (cbs.onDrag d s).unmounts = false) :
    (handleDrag p cbs g e st h).calls = [⟨CbKind.drag, ⟨x, y, 0, 0, x, y⟩⟩] ∧
    (handleDrag p cbs g e st h).core.dragging = false ∧
    (handleDrag p cbs g e st h).core.lastX = some x ∧
    (handleDrag p cbs g e st h).core.lastY = some y ∧
    (handleDrag p cbs g e st h).core.moveStopListeners = st.moveStopListeners ∧
    (handleDrag p cbs g e st h).core.touchIdentifier = st.touchIdentifier ∧
    (handleDrag p cbs g e st h).threw = false := by
  have hm := mounted_of_ok e st.touchIdentifier st.mounted g p.scale x y hpos
  rw [hm] at hpos
  unfold handleDrag
  simp [hpos, hgrid, hlx, hly, hdrag, hret, hnu, hm, gridAdjust, createCoreData]

/-- Witness for the amended C8 at a concrete idle state and (5,5) event. -/
theorem c8_idle_move_fresh_start_witness :
    idleCoreState.dragging = false ∧
    (handleDrag baseCoreProps trivialCbs zeroGeom (mouseEventAt 5 5) idleCoreState ()).calls =
      [⟨CbKind.drag, ⟨5, 5, 0, 0, 5, 5⟩⟩] ∧
    (handleDrag baseCoreProps trivialCbs zeroGeom (mouseEventAt 5 5) idleCoreState ()).core.lastX =
      some 5 :=
  ⟨rfl,
    (c8_idle_move_fresh_start baseCoreProps trivialCbs zeroGeom (mouseEventAt 5 5)
      idleCoreState () 5 5 rfl rfl rfl rfl
      (by norm_num [getControlPosition, resolveTouch, offsetXYFromParent, mouseEventAt,
        idleCoreState, zeroGeom, baseCoreProps])
      (fun _ _ hc => Option.noConfusion hc) (fun _ _ => rfl)).1,
    (c8_idle_move_fresh_start baseCoreProps trivialCbs zeroGeom (mouseEventAt 5 5)
      idleCoreState () 5 5 rfl rfl rfl rfl
      (by norm_num [getControlPosition, resolveTouch, offsetXYFromParent, mouseEventAt,
        idleCoreState, zeroGeom, baseCoreProps])
      (fun _ _ hc => Option.noConfusion hc) (fun _ _ => rfl)).2.2.1⟩

/-- Evaluation of handleDragStop for a mouse session with no grid and a
non-vetoing, non-unmounting stop callback: the session closes. -/
theorem handleDragStop_mouse_close {σ : Type} (p : CoreProps) (cbs : Callbacks σ)
    (g : Geom) (e : MouseTouchEvent) (st : CoreState) (h : σ) (lx ly : ℚ)
    (hdrag : st.dragging = true) (hm : st.mounted = true)
    (htid : st.touchIdentifier = none)
    (hlx : st.lastX = some lx) (hly : st.lastY = some ly)
    (hgrid : p.grid = none)
    (hret : ∀ d s, (cbs.onStop d s).ret ≠ some false)
    (hnu : ∀ d s, (cbs.onStop d s).unmounts = false) :
    handleDragStop p cbs g e st h =
      ⟨{ st with
          dragging := false, lastX := none, lastY := none,
          selectionGuard := (!p.enableUserSelectHack && st.selectionGuard),
          moveStopListeners := false },
        (cbs.onStop ⟨(posOf g p.scale e).1, (posOf g p.scale e).2,
            (posOf g p.scale e).1 - lx, (posOf g p.scale e).2 - ly, lx, ly⟩ h).st,
        [⟨CbKind.stop, ⟨(posOf g p.scale e).1, (posOf g p.scale e).2,
            (posOf g p.scale e).1 - lx, (posOf g p.scale e).2 - ly, lx, ly⟩⟩], false⟩ := by
  have hpos := getControlPosition_mouse e g p.scale
  unfold handleDragStop
  rw [hdrag, htid, hm]
  simp [hpos, hgrid, hlx, hly, stopGridAdjust, createCoreData, hret, hnu, hm]

/-- Counterexample to claim C2: in a touch-initiated session (tracking
finger 7), a move veto synthesizes a mouse stop event that carries no touch
with identifier 7, so the stop path silently drops it: dragging stays true,
the document listeners stay attached and lastX keeps its value — the session
outlives the veto. -/
theorem c2_touch_veto_counterexample :
    (handleDrag baseCoreProps vetoDragCbs zeroGeom touchMoveEvent7
      (activeTouchState 7 0 0) ()).core.dragging = true ∧
    (handleDrag baseCoreProps vetoDragCbs zeroGeom touchMoveEvent7
      (activeTouchState 7 0 0) ()).core.moveStopListeners = true ∧
    (handleDrag baseCoreProps vetoDragCbs zeroGeom touchMoveEvent7
      (activeTouchState 7 0 0) ()).core.lastX = some 0 := by
  norm_num [handleDrag, handleDragStop, getControlPosition, resolveTouch, getTouch,
    findTouch, offsetXYFromParent, gridAdjust, createCoreData, baseCoreProps,
    vetoDragCbs, zeroGeom, touchMoveEvent7, activeTouchState, syntheticMouseUp,
    List.find?]

/-- Amended claim C2: for a mouse-initiated active session, when the move
callback returns the explicit false (and does not unmount), the session is
force-terminated through the full stop path on a synthetic mouseup — the
stop callback runs and, provided it does not veto, dragging is cleared,
lastX/lastY are reset to the sentinel and the document listeners are
detached.  (For touch-initiated sessions the synthetic mouse event fails
touch-identifier resolution and the session stays open, and an unmount
during the callback aborts the stop path before detaching.) -/
theorem c2_mouse_move_veto_force_stop {σ : Type} (p : CoreProps) (cbs : Callbacks σ)
    (g : Geom) (e : MouseTouchEvent) (st : CoreState) (h : σ) (lx ly : ℚ)
    (hdrag : st.dragging = true) (hm : st.mounted = true)
    (htid : st.touchIdentifier = none)
    (hlx : st.lastX = some lx) (hly : st.lastY = some ly)
    (hgrid : p.grid = none)
    (hveto : ∀ d s, (cbs.onDrag d s).ret = some false)
    (hvnu : ∀ d s, (cbs.onDrag d s).unmounts = false)
    (hsret : ∀ d s, (cbs.onStop d s).ret ≠ some false)
    (hsnu : ∀ d s, (cbs.onStop d s).unmounts = false) :
    (handleDrag p cbs g e st h).core.dragging = false ∧
    (handleDrag p cbs g e st h).core.moveStopListeners = false ∧
    (handleDrag p cbs g e st h).core.lastX = none ∧
    (handleDrag p cbs g e st h).core.lastY = none ∧
    (∃ d, CallRecord.mk CbKind.stop d ∈ (handleDrag p cbs g e st h).calls) ∧
    (handleDrag p cbs g e st h).threw = false := by
  have hpos := getControlPosition_mouse e g p.scale
  unfold handleDrag
  rw [htid, hm]
  simp [hpos, hgrid, hlx, hly, gridAdjust, createCoreData, hveto, hvnu, hsret, hsnu,
    handleDragStop, getControlPosition, resolveTouch, syntheticMouseUp, stopGridAdjust,
    offsetXYFromParent, hdrag]

/-- Witness for the amended C2: a mouse-session move veto closes the session. -/
theorem c2_mouse_move_veto_force_stop_witness :
    (activeMouseState 0 0).touchIdentifier = none ∧
    (handleDrag baseCoreProps vetoDragCbs zeroGeom (mouseEventAt 20 0)
      (activeMouseState 0 0) ()).core.dragging = false ∧
    (handleDrag baseCoreProps vetoDragCbs zeroGeom (mouseEventAt 20 0)
      (activeMouseState 0 0) ()).core.moveStopListeners = false :=
  ⟨rfl,
    (c2_mouse_move_veto_force_stop baseCoreProps vetoDragCbs zeroGeom (mouseEventAt 20 0)
      (activeMouseState 0 0) () 0 0 rfl rfl rfl rfl rfl rfl
      (fun _ _ => rfl) (fun _ _ => rfl)
      (fun _ _ hc => Option.noConfusion hc) (fun _ _ => rfl)).1,
    (c2_mouse_move_veto_force_stop baseCoreProps vetoDragCbs zeroGeom (mouseEventAt 20 0)
      (activeMouseState 0 0) () 0 0 rfl rfl rfl rfl rfl rfl
      (fun _ _ => rfl) (fun _ _ => rfl)
      (fun _ _ hc => Option.noConfusion hc) (fun _ _ => rfl)).2.1⟩

/-- Counterexample to claim C3: uncontrolled Draggable with bounds 0..100,
visible x pinned at 100 with slackX 50, mouse session with lastX 100.  The
host move callback vetoes a move back to 70.  The visible x is indeed not
committed (stays 100), but the claim's other conjuncts fail: the tracker
does NOT advance lastX to the new position 70 — the veto force-stops the
session and resets lastX to the sentinel — and the forced stop also zeroes
the slack (50 becomes 0). -/
theorem c3_move_veto_counterexample :
    (handleDrag baseCoreProps (draggableCallbacks c3Props vetoDragHost) zeroGeom
      (mouseEventAt 70 0) (activeMouseState 100 0) c3DragState).host.x = 100 ∧
    (handleDrag baseCoreProps (draggableCallbacks c3Props vetoDragHost) zeroGeom
      (mouseEventAt 70 0) (activeMouseState 100 0) c3DragState).host.slackX ≠ 50 ∧
    (handleDrag baseCoreProps (draggableCallbacks c3Props vetoDragHost) zeroGeom
      (mouseEventAt 70 0) (activeMouseState 100 0) c3DragState).host.slackX = 0 ∧
    (handleDrag baseCoreProps (draggableCallbacks c3Props vetoDragHost) zeroGeom
      (mouseEventAt 70 0) (activeMouseState 100 0) c3DragState).core.lastX ≠ some 70 ∧
    (handleDrag baseCoreProps (draggableCallbacks c3Props vetoDragHost) zeroGeom
      (mouseEventAt 70 0) (activeMouseState 100 0) c3DragState).core.lastX = none := by
  norm_num [handleDrag, handleDragStop, getControlPosition, resolveTouch, offsetXYFromParent,
    gridAdjust, createCoreData, baseCoreProps, draggableCallbacks, draggableOnDrag,
    draggableOnDragStop, createDraggableData, getBoundPosition, boundsLR, c3Props,
    vetoDragHost, c3DragState, activeMouseState, zeroGeom, mouseEventAt, syntheticMouseUp,
    stopGridAdjust]
  simp

/-- Amended claim C3: when the host's move callback returns the explicit
false during an active mouse-initiated drag (uncontrolled position, stop
callback not vetoing), the Reconciler's visible x/y keep their pre-move
values, but the tracker does not advance lastX/lastY: the veto propagates to
the core, which force-terminates the session, resetting lastX/lastY to the
sentinel, clearing both dragging flags and zeroing the slack. -/
theorem c3_move_veto_blocks_commit (cp : CoreProps) (dp : DraggableProps)
    (host : HostCallbacks) (g : Geom) (e : MouseTouchEvent) (st : CoreState)
    (s : DraggableState) (lx ly : ℚ)
    (hdrag : st.dragging = true) (hm : st.mounted = true)
    (htid : st.touchIdentifier = none)
    (hlx : st.lastX = some lx) (hly : st.lastY = some ly)
    (hgrid : cp.grid = none)
    (hsdrag : s.dragging = true)
    (hposn : dp.position = none)
    (hveto : ∀ d, host.onDrag d = some false)
    (hstop : ∀ d, host.onStop d ≠ some false) :
    (handleDrag cp (draggableCallbacks dp host) g e st s).host.x = s.x ∧
    (handleDrag cp (draggableCallbacks dp host) g e st s).host.y = s.y ∧
    (handleDrag cp (draggableCallbacks dp host) g e st s).host.slackX = 0 ∧
    (handleDrag cp (draggableCallbacks dp host) g e st s).host.slackY = 0 ∧
    (handleDrag cp (draggableCallbacks dp host) g e st s).host.dragging = false ∧
    (handleDrag cp (draggableCallbacks dp host) g e st s).core.lastX = none ∧
    (handleDrag cp (draggableCallbacks dp host) g e st s).core.lastY = none ∧
    (handleDrag cp (draggableCallbacks dp host) g e st s).core.dragging = false ∧
    (handleDrag cp (draggableCallbacks dp host) g e st s).threw = false := by
  have hpos := getControlPosition_mouse e g cp.scale
  unfold handleDrag
  rw [htid, hm]
  simp [hpos, hgrid, hlx, hly, gridAdjust, createCoreData, handleDragStop,
    getControlPosition, resolveTouch, syntheticMouseUp, stopGridAdjust, offsetXYFromParent,
    hdrag, draggableCallbacks, draggableOnDrag, draggableOnDragStop, hsdrag, hposn,
    hveto, hstop]

/-- Witness for the amended C3 at the concrete bounded state of the
counterexample. -/
theorem c3_move_veto_blocks_commit_witness :
    c3DragState.dragging = true ∧
    (handleDrag baseCoreProps (draggableCallbacks c3Props vetoDragHost) zeroGeom
      (mouseEventAt 70 0) (activeMouseState 100 0) c3DragState).host.x = c3DragState.x ∧
    (handleDrag baseCoreProps (draggableCallbacks c3Props vetoDragHost) zeroGeom
      (mouseEventAt 70 0) (activeMouseState 100 0) c3DragState).core.lastX = none :=
  ⟨rfl,
    (c3_move_veto_blocks_commit baseCoreProps c3Props vetoDragHost zeroGeom
      (mouseEventAt 70 0) (activeMouseState 100 0) c3DragState 100 0
      rfl rfl rfl rfl rfl rfl rfl rfl (fun _ => rfl)
      (fun _ hc => Option.noConfusion hc)).1,
    (c3_move_veto_blocks_commit baseCoreProps c3Props vetoDragHost zeroGeom
      (mouseEventAt 70 0) (activeMouseState 100 0) c3DragState 100 0
      rfl rfl rfl rfl rfl rfl rfl rfl (fun _ => rfl)
      (fun _ hc => Option.noConfusion hc)).2.2.2.2.2.1⟩

/-- Evaluation of Draggable.onDrag on a bounded, non-vetoed move: the slack
is added before clamping, the clamped result is committed, the shaved-off
amount is accumulated into the slack, and the emitted record is rewritten to
the clamped result. -/
theorem draggableOnDrag_bounded (dp : DraggableProps) (host : DraggableData → Option Bool)
    (cd : DraggableData) (s : DraggableState) (b : Bounds)
    (hb : dp.bounds = some b) (hsdrag : s.dragging = true)
    (hnv : ∀ d, host d ≠ some false) :
    draggableOnDrag dp host cd s =
      ⟨none,
       { s with
          x := (getBoundPosition (some b) (s.x + cd.deltaX / dp.scale + s.slackX)
                 (s.y + cd.deltaY / dp.scale + s.slackY)).1,
          y := (getBoundPosition (some b) (s.x + cd.deltaX / dp.scale + s.slackX)
                 (s.y + cd.deltaY / dp.scale + s.slackY)).2,
          slackX := s.slackX + (s.x + cd.deltaX / dp.scale -
            (getBoundPosition (some b) (s.x + cd.deltaX / dp.scale + s.slackX)
              (s.y + cd.deltaY / dp.scale + s.slackY)).1),
          slackY := s.slackY + (s.y + cd.deltaY / dp.scale -
            (getBoundPosition (some b) (s.x + cd.deltaX / dp.scale + s.slackX)
              (s.y + cd.deltaY / dp.scale + s.slackY)).2) },
       some ⟨(getBoundPosition (some b) (s.x + cd.deltaX / dp.scale + s.slackX)
               (s.y + cd.deltaY / dp.scale + s.slackY)).1,
             (getBoundPosition (some b) (s.x + cd.deltaX / dp.scale + s.slackX)
               (s.y + cd.deltaY / dp.scale + s.slackY)).2,
             (getBoundPosition (some b) (s.x + cd.deltaX / dp.scale + s.slackX)
               (s.y + cd.deltaY / dp.scale + s.slackY)).1 - s.x,
             (getBoundPosition (some b) (s.x + cd.deltaX / dp.scale + s.slackX)
               (s.y + cd.deltaY / dp.scale + s.slackY)).2 - s.y,
             s.x, s.y⟩⟩ := by
  unfold draggableOnDrag
  simp [hsdrag, hb, createDraggableData, hnv]

/-- Claim C4: bounded moves clamp with slack.  (a) With bounds left 0 /
right 100 and zero slack, a move whose provisional x is 150 reports x
exactly 100 and leaves slackX exactly 50.  (b) On every bounded non-vetoed
move, the committed position is the clamp of provisional-plus-slack, the new
slack is the previous slack plus the clamped-away amount per axis, and the
outgoing record's x/y/deltaX/deltaY are rewritten to the clamped result.
(c) Moving back toward the bounds consumes slack before the clamped x can
move: while enough slack remains the committed x stays at the right bound
and the slack strictly decreases. -/
theorem c4_bounds_slack_clamping (dp : DraggableProps) (host : DraggableData → Option Bool) :
    (∀ (cd : DraggableData) (s : DraggableState),
      dp.bounds = some (boundsLR 0 100) → s.dragging = true → s.slackX = 0 →
      s.x + cd.deltaX / dp.scale = 150 →
      (∀ d, host d ≠ some false) →
      (∃ d, (draggableOnDrag dp host cd s).emitted = some d ∧ d.x = 100 ∧ d.lastX = s.x) ∧
      (draggableOnDrag dp host cd s).st.x = 100 ∧
      (draggableOnDrag dp host cd s).st.slackX = 50) ∧
    (∀ (b : Bounds) (cd : DraggableData) (s : DraggableState) (bx b2 : ℚ),
      dp.bounds = some b → s.dragging = true → (∀ d, host d ≠ some false) →
      getBoundPosition (some b) (s.x + cd.deltaX / dp.scale + s.slackX)
        (s.y + cd.deltaY / dp.scale + s.slackY) = (bx, b2) →
      (draggableOnDrag dp host cd s).emitted =
        some ⟨bx, b2, bx - s.x, b2 - s.y, s.x, s.y⟩ ∧
      (draggableOnDrag dp host cd s).st.x = bx ∧
      (draggableOnDrag dp host cd s).st.y = b2 ∧
      (draggableOnDrag dp host cd s).st.slackX =
        s.slackX + (s.x + cd.deltaX / dp.scale - bx) ∧
      (draggableOnDrag dp host cd s).st.slackY =
        s.slackY + (s.y + cd.deltaY / dp.scale - b2)) ∧
    (∀ (l r : ℚ) (cd : DraggableData) (s : DraggableState),
      dp.bounds = some (boundsLR l r) → s.dragging = true →
      (∀ d, host d ≠ some false) →
      l ≤ s.x + cd.deltaX / dp.scale → s.x + cd.deltaX / dp.scale ≤ r →
      r ≤ s.x + cd.deltaX / dp.scale + s.slackX →
      (draggableOnDrag dp host cd s).st.x = r ∧
      (draggableOnDrag dp host cd s).st.slackX =
        s.slackX + (s.x + cd.deltaX / dp.scale - r) ∧
      (draggableOnDrag dp host cd s).st.slackX ≤ s.slackX ∧
      (s.x + cd.deltaX / dp.scale < r →
        (draggableOnDrag dp host cd s).st.slackX < s.slackX)) := by
  refine ⟨?_, ?_, ?_⟩
  · intro cd s hb hsdrag hslack h150 hnv
    rw [draggableOnDrag_bounded dp host cd s (boundsLR 0 100) hb hsdrag hnv]
    simp [h150, hslack, getBoundPosition, boundsLR]
    norm_num
  · intro b cd s bx b2 hb hsdrag hnv hbp
    rw [draggableOnDrag_bounded dp host cd s b hb hsdrag hnv]
    simp [hbp]
  · intro l r cd s hb hsdrag hnv hl hr hslack
    have hbx : (getBoundPosition (some (boundsLR l r)) (s.x + cd.deltaX / dp.scale + s.slackX)
        (s.y + cd.deltaY / dp.scale + s.slackY)).1 = r := by
      simp only [getBoundPosition, boundsLR]
      rw [min_eq_right hslack, max_eq_left (le_trans hl hr)]
    rw [draggableOnDrag_bounded dp host cd s (boundsLR l r) hb hsdrag hnv]
    simp only [hbx]
    refine ⟨trivial, trivial, ?_, ?_⟩
    · linarith
    · intro hlt; linarith

/-- Evaluation of handleDrag for a mouse session, no grid, non-vetoing and
non-unmounting move callback: the position is committed and one drag record
with the telescoping delta is emitted. -/
theorem handleDrag_mouse_step {σ : Type} (p : CoreProps) (cbs : Callbacks σ)
    (g : Geom) (e : MouseTouchEvent) (st : CoreState) (h : σ) (lx ly : ℚ)
    (hm : st.mounted = true) (htid : st.touchIdentifier = none)
    (hlx : st.lastX = some lx) (hly : st.lastY = some ly)
    (hgrid : p.grid = none)
    (hret : ∀ d s, (cbs.onDrag d s).ret ≠ some false)
    (hnu : ∀ d s, (cbs.onDrag d s).unmounts = false) :
    handleDrag p cbs g e st h =
      ⟨{ st with lastX := some (posOf g p.scale e).1, lastY := some (posOf g p.scale e).2 },
       (cbs.onDrag ⟨(posOf g p.scale e).1, (posOf g p.scale e).2,
          (posOf g p.scale e).1 - lx, (posOf g p.scale e).2 - ly, lx, ly⟩ h).st,
       [⟨CbKind.drag, ⟨(posOf g p.scale e).1, (posOf g p.scale e).2,
          (posOf g p.scale e).1 - lx, (posOf g p.scale e).2 - ly, lx, ly⟩⟩],
       false⟩ := by
  have hpos := getControlPosition_mouse e g p.scale
  unfold handleDrag
  rw [htid, hm]
  simp [hpos, hgrid, hlx, hly, gridAdjust, createCoreData, hret, hnu, hm]

/-- Running a list of moves over a mouse session with no grid and a
non-vetoing, non-unmounting move callback: the last position tracks the last
event, every emitted record is a move record, and the emitted deltas
telescope to (final last position) minus (initial last position). -/
theorem runMoves_mouse_no_grid {σ : Type} (p : CoreProps) (cbs : Callbacks σ) (g : Geom)
    (hgrid : p.grid = none)
    (hret : ∀ d s, (cbs.onDrag d s).ret ≠ some false)
    (hnu : ∀ d s, (cbs.onDrag d s).unmounts = false) :
    ∀ (es : List MouseTouchEvent) (st : CoreState) (h : σ) (lx ly : ℚ),
      st.mounted = true → st.touchIdentifier = none →
      st.lastX = some lx → st.lastY = some ly →
      (runMoves p cbs g es st h).core =
        { st with lastX := some (finalPos g p.scale es (lx, ly)).1,
                  lastY := some (finalPos g p.scale es (lx, ly)).2 } ∧
      (runMoves p cbs g es st h).threw = false ∧
      (∀ c ∈ (runMoves p cbs g es st h).calls, c.kind = CbKind.drag) ∧
      sumDeltaX (runMoves p cbs g es st h).calls = (finalPos g p.scale es (lx, ly)).1 - lx ∧
      sumDeltaY (runMoves p cbs g es st h).calls = (finalPos g p.scale es (lx, ly)).2 - ly := by
  intro es
  induction es with
  | nil =>
    intro st h lx ly hm htid hlx hly
    refine ⟨?_, rfl, by simp [runMoves], ?_, ?_⟩
    · show st = _
      simp only [finalPos, List.foldl_nil]
      rw [← hlx, ← hly]
    · simp [runMoves, sumDeltaX, finalPos]
    · simp [runMoves, sumDeltaY, finalPos]
  | cons e es ih =>
    intro st h lx ly hm htid hlx hly
    have hstep := handleDrag_mouse_step p cbs g e st h lx ly hm htid hlx hly hgrid hret hnu
    have ihx := ih
      { st with lastX := some (posOf g p.scale e).1, lastY := some (posOf g p.scale e).2 }
      ((cbs.onDrag ⟨(posOf g p.scale e).1, (posOf g p.scale e).2,
        (posOf g p.scale e).1 - lx, (posOf g p.scale e).2 - ly, lx, ly⟩ h).st)
      (posOf g p.scale e).1 (posOf g p.scale e).2 hm htid rfl rfl
    obtain ⟨ih1, ih2, ih3, ih4, ih5⟩ := ihx
    refine ⟨?_, ?_, ?_, ?_, ?_⟩
    · simp only [runMoves, hstep, finalPos, List.foldl_cons]
      rw [ih1]
      rfl
    · simp only [runMoves, hstep]
      simp [ih2]
    · simp only [runMoves, hstep]
      intro c hc
      rcases List.mem_append.mp hc with hc1 | hc2
      · simp at hc1; subst hc1; rfl
      · exact ih3 c hc2
    · simp only [runMoves, hstep, finalPos, List.foldl_cons]
      simp only [sumDeltaX, finalPos, List.map_append, List.sum_append] at ih4 ⊢
      simp only [List.map_cons, List.map_nil, List.sum_cons, List.sum_nil]
      rw [ih4]
      simp only [Prod.mk.eta]
      ring
    · simp only [runMoves, hstep, finalPos, List.foldl_cons]
      simp only [sumDeltaY, finalPos, List.map_append, List.sum_append] at ih5 ⊢
      simp only [List.map_cons, List.map_nil, List.sum_cons, List.sum_nil]
      rw [ih5]
      simp only [Prod.mk.eta]
      ring

/-- Evaluation of handleDragStart for a mouse-family start event that passes
every guard, on an idle tracker, with a non-vetoing, non-unmounting start
callback: the session opens at the resolved position with a zero-delta
fresh-start record. -/
theorem handleDragStart_mouse_open {σ : Type} (p : CoreProps) (cbs : Callbacks σ)
    (g : Geom) (e : MouseTouchEvent) (st : CoreState) (h : σ)
    (hbtn : e.button = some 0)
    (hm : st.mounted = true)
    (hdis : p.disabled = false) (htarget : e.targetIsNode = true)
    (hhandle : p.handle = none) (hcancel : p.cancel = none)
    (htt : e.targetTouches = none) (hct : e.changedTouches = none)
    (hlx : st.lastX = none) (hly : st.lastY = none)
    (hret : ∀ d s, (cbs.onStart d s).ret ≠ some false)
    (hnu : ∀ d s, (cbs.onStart d s).unmounts = false) :
    handleDragStart p cbs g e st h =
      ⟨{ st with
          touchIdentifier := none, dragging := true,
          lastX := some (posOf g p.scale e).1, lastY := some (posOf g p.scale e).2,
          selectionGuard := (p.enableUserSelectHack || st.selectionGuard),
          moveStopListeners := true },
        (cbs.onStart ⟨(posOf g p.scale e).1, (posOf g p.scale e).2, 0, 0,
           (posOf g p.scale e).1, (posOf g p.scale e).2⟩ h).st,
        [⟨CbKind.start, ⟨(posOf g p.scale e).1, (posOf g p.scale e).2, 0, 0,
           (posOf g p.scale e).1, (posOf g p.scale e).2⟩⟩], false⟩ := by
  have hid : getTouchIdentifier e = none := by simp [getTouchIdentifier, htt, hct]
  unfold handleDragStart
  simp [hbtn, buttonNonPrimary, hm, hdis, htarget, hhandle, hcancel, hid,
    getControlPosition, resolveTouch, offsetXYFromParent, posOf, createCoreData,
    hlx, hly, hret, hnu]


/-- Claim C6: for a full mouse session (down, moves, up) with no grid, scale
1 and no veto, the very first emitted sample has delta (0,0); the position
reported at stop equals the position reported at start plus the sum of all
emitted deltas; and the drag-record deltas alone telescope to (last position
at stop) minus (position at start). -/
theorem c6_session_delta_algebra {σ : Type} (p : CoreProps) (cbs : Callbacks σ) (g : Geom)
    (e0 : MouseTouchEvent) (es : List MouseTouchEvent) (eS : MouseTouchEvent)
    (st : CoreState) (h : σ)
    (hbtn : e0.button = some 0) (htarget : e0.targetIsNode = true)
    (htt : e0.targetTouches = none) (hct : e0.changedTouches = none)
    (hm : st.mounted = true) (hlx : st.lastX = none) (hly : st.lastY = none)
    (hdis : p.disabled = false) (hhandle : p.handle = none) (hcancel : p.cancel = none)
    (hgrid : p.grid = none) (_hscale : p.scale = 1)
    (hs1 : ∀ d s, (cbs.onStart d s).ret ≠ some false)
    (hs2 : ∀ d s, (cbs.onStart d s).unmounts = false)
    (hd1 : ∀ d s, (cbs.onDrag d s).ret ≠ some false)
    (hd2 : ∀ d s, (cbs.onDrag d s).unmounts = false)
    (hp1 : ∀ d s, (cbs.onStop d s).ret ≠ some false)
    (hp2 : ∀ d s, (cbs.onStop d s).unmounts = false) :
    (runSession p cbs g e0 es eS st h).threw = false ∧
    (runSession p cbs g e0 es eS st h).calls.head? = some ⟨CbKind.start, ⟨(posOf g p.scale e0).1, (posOf g p.scale e0).2, 0, 0, (posOf g p.scale e0).1, (posOf g p.scale e0).2⟩⟩ ∧
    (runSession p cbs g e0 es eS st h).calls.getLast? = some ⟨CbKind.stop, ⟨(posOf g p.scale eS).1, (posOf g p.scale eS).2, (posOf g p.scale eS).1 - (finalPos g p.scale es (posOf g p.scale e0)).1, (posOf g p.scale eS).2 - (finalPos g p.scale es (posOf g p.scale e0)).2, (finalPos g p.scale es (posOf g p.scale e0)).1, (finalPos g p.scale es (posOf g p.scale e0)).2⟩⟩ ∧
    (posOf g p.scale eS).1 = (posOf g p.scale e0).1 + sumDeltaX (runSession p cbs g e0 es eS st h).calls ∧
    (posOf g p.scale eS).2 = (posOf g p.scale e0).2 + sumDeltaY (runSession p cbs g e0 es eS st h).calls ∧
    sumDeltaX (dragOnly (runSession p cbs g e0 es eS st h).calls) = (finalPos g p.scale es (posOf g p.scale e0)).1 - (posOf g p.scale e0).1 ∧
    sumDeltaY (dragOnly (runSession p cbs g e0 es eS st h).calls) = (finalPos g p.scale es (posOf g p.scale e0)).2 - (posOf g p.scale e0).2 := by
  have hopen := handleDragStart_mouse_open p cbs g e0 st h hbtn hm hdis htarget hhandle
    hcancel htt hct hlx hly hs1 hs2
  have hmv := runMoves_mouse_no_grid p cbs g hgrid hd1 hd2 es
      { st with
        touchIdentifier := none, dragging := true,
        lastX := some (posOf g p.scale e0).1, lastY := some (posOf g p.scale e0).2,
        selectionGuard := (p.enableUserSelectHack || st.selectionGuard),
        moveStopListeners := true }
      ((cbs.onStart ⟨(posOf g p.scale e0).1, (posOf g p.scale e0).2, 0, 0, (posOf g p.scale e0).1, (posOf g p.scale e0).2⟩ h).st)
      (posOf g p.scale e0).1 (posOf g p.scale e0).2 hm rfl rfl rfl
  obtain ⟨hc1, hc2, hc3, hc4, hc5⟩ := hmv
  simp only [Prod.mk.eta] at hc1 hc4 hc5
  have hdragB : (runMoves p cbs g es
      { st with
        touchIdentifier := none, dragging := true,
        lastX := some (posOf g p.scale e0).1, lastY := some (posOf g p.scale e0).2,
        selectionGuard := (p.enableUserSelectHack || st.selectionGuard),
        moveStopListeners := true }
      ((cbs.onStart ⟨(posOf g p.scale e0).1, (posOf g p.scale e0).2, 0, 0, (posOf g p.scale e0).1, (posOf g p.scale e0).2⟩ h).st)).core.dragging = true := by rw [hc1]
  have hmB : (runMoves p cbs g es
      { st with
        touchIdentifier := none, dragging := true,
        lastX := some (posOf g p.scale e0).1, lastY := some (posOf g p.scale e0).2,
        selectionGuard := (p.enableUserSelectHack || st.selectionGuard),
        moveStopListeners := true }
      ((cbs.onStart ⟨(posOf g p.scale e0).1, (posOf g p.scale e0).2, 0, 0, (posOf g p.scale e0).1, (posOf g p.scale e0).2⟩ h).st)).core.mounted = true := by rw [hc1]; exact hm
  have htidB : (runMoves p cbs g es
      { st with
        touchIdentifier := none, dragging := true,
        lastX := some (posOf g p.scale e0).1, lastY := some (posOf g p.scale e0).2,
        selectionGuard := (p.enableUserSelectHack || st.selectionGuard),
        moveStopListeners := true }
      ((cbs.onStart ⟨(posOf g p.scale e0).1, (posOf g p.scale e0).2, 0, 0, (posOf g p.scale e0).1, (posOf g p.scale e0).2⟩ h).st)).core.touchIdentifier = none := by rw [hc1]
  have hlxB : (runMoves p cbs g es
      { st with
        touchIdentifier := none, dragging := true,
        lastX := some (posOf g p.scale e0).1, lastY := some (posOf g p.scale e0).2,
        selectionGuard := (p.enableUserSelectHack || st.selectionGuard),
        moveStopListeners := true }
      ((cbs.onStart ⟨(posOf g p.scale e0).1, (posOf g p.scale e0).2, 0, 0, (posOf g p.scale e0).1, (posOf g p.scale e0).2⟩ h).st)).core.lastX = some (finalPos g p.scale es (posOf g p.scale e0)).1 := by rw [hc1]
  have hlyB : (runMoves p cbs g es
      { st with
        touchIdentifier := none, dragging := true,
        lastX := some (posOf g p.scale e0).1, lastY := some (posOf g p.scale e0).2,
        selectionGuard := (p.enableUserSelectHack || st.selectionGuard),
        moveStopListeners := true }
      ((cbs.onStart ⟨(posOf g p.scale e0).1, (posOf g p.scale e0).2, 0, 0, (posOf g p.scale e0).1, (posOf g p.scale e0).2⟩ h).st)).core.lastY = some (finalPos g p.scale es (posOf g p.scale e0)).2 := by rw [hc1]
  have hstop := handleDragStop_mouse_close p cbs g eS (runMoves p cbs g es
      { st with
        touchIdentifier := none, dragging := true,
        lastX := some (posOf g p.scale e0).1, lastY := some (posOf g p.scale e0).2,
        selectionGuard := (p.enableUserSelectHack || st.selectionGuard),
        moveStopListeners := true }
      ((cbs.onStart ⟨(posOf g p.scale e0).1, (posOf g p.scale e0).2, 0, 0, (posOf g p.scale e0).1, (posOf g p.scale e0).2⟩ h).st)).core (runMoves p cbs g es
      { st with
        touchIdentifier := none, dragging := true,
        lastX := some (posOf g p.scale e0).1, lastY := some (posOf g p.scale e0).2,
        selectionGuard := (p.enableUserSelectHack || st.selectionGuard),
        moveStopListeners := true }
      ((cbs.onStart ⟨(posOf g p.scale e0).1, (posOf g p.scale e0).2, 0, 0, (posOf g p.scale e0).1, (posOf g p.scale e0).2⟩ h).st)).host
      (finalPos g p.scale es (posOf g p.scale e0)).1 (finalPos g p.scale es (posOf g p.scale e0)).2 hdragB hmB htidB hlxB hlyB hgrid hp1 hp2
  have hcalls : (runSession p cbs g e0 es eS st h).calls =
      (⟨CbKind.start, ⟨(posOf g p.scale e0).1, (posOf g p.scale e0).2, 0, 0, (posOf g p.scale e0).1, (posOf g p.scale e0).2⟩⟩ : CallRecord) :: ((runMoves p cbs g es
      { st with
        touchIdentifier := none, dragging := true,
        lastX := some (posOf g p.scale e0).1, lastY := some (posOf g p.scale e0).2,
        selectionGuard := (p.enableUserSelectHack || st.selectionGuard),
        moveStopListeners := true }
      ((cbs.onStart ⟨(posOf g p.scale e0).1, (posOf g p.scale e0).2, 0, 0, (posOf g p.scale e0).1, (posOf g p.scale e0).2⟩ h).st)).calls ++ [(⟨CbKind.stop, ⟨(posOf g p.scale eS).1, (posOf g p.scale eS).2, (posOf g p.scale eS).1 - (finalPos g p.scale es (posOf g p.scale e0)).1, (posOf g p.scale eS).2 - (finalPos g p.scale es (posOf g p.scale e0)).2, (finalPos g p.scale es (posOf g p.scale e0)).1, (finalPos g p.scale es (posOf g p.scale e0)).2⟩⟩ : CallRecord)]) := by
    unfold runSession
    simp only [hopen, hstop]
    rfl
  have hthrew : (runSession p cbs g e0 es eS st h).threw = false := by
    unfold runSession
    simp only [hopen, hstop]
    simp [hc2]
  refine ⟨hthrew, ?_, ?_, ?_, ?_, ?_, ?_⟩
  · rw [hcalls]
    rfl
  · rw [hcalls]
    show (((⟨CbKind.start, ⟨(posOf g p.scale e0).1, (posOf g p.scale e0).2, 0, 0, (posOf g p.scale e0).1, (posOf g p.scale e0).2⟩⟩ : CallRecord) :: (runMoves p cbs g es
      { st with
        touchIdentifier := none, dragging := true,
        lastX := some (posOf g p.scale e0).1, lastY := some (posOf g p.scale e0).2,
        selectionGuard := (p.enableUserSelectHack || st.selectionGuard),
        moveStopListeners := true }
      ((cbs.onStart ⟨(posOf g p.scale e0).1, (posOf g p.scale e0).2, 0, 0, (posOf g p.scale e0).1, (posOf g p.scale e0).2⟩ h).st)).calls) ++ [(⟨CbKind.stop, ⟨(posOf g p.scale eS).1, (posOf g p.scale eS).2, (posOf g p.scale eS).1 - (finalPos g p.scale es (posOf g p.scale e0)).1, (posOf g p.scale eS).2 - (finalPos g p.scale es (posOf g p.scale e0)).2, (finalPos g p.scale es (posOf g p.scale e0)).1, (finalPos g p.scale es (posOf g p.scale e0)).2⟩⟩ : CallRecord)]).getLast? = _
    exact List.getLast?_concat _
  · rw [hcalls]
    simp only [sumDeltaX] at hc4 ⊢
    simp only [List.map_cons, List.map_append, List.sum_cons, List.sum_append,
      List.map_nil, List.sum_nil]
    rw [hc4]
    ring
  · rw [hcalls]
    simp only [sumDeltaY] at hc5 ⊢
    simp only [List.map_cons, List.map_append, List.sum_cons, List.sum_append,
      List.map_nil, List.sum_nil]
    rw [hc5]
    ring
  · rw [hcalls]
    have hfilter : dragOnly ((⟨CbKind.start, ⟨(posOf g p.scale e0).1, (posOf g p.scale e0).2, 0, 0, (posOf g p.scale e0).1, (posOf g p.scale e0).2⟩⟩ : CallRecord) :: ((runMoves p cbs g es
      { st with
        touchIdentifier := none, dragging := true,
        lastX := some (posOf g p.scale e0).1, lastY := some (posOf g p.scale e0).2,
        selectionGuard := (p.enableUserSelectHack || st.selectionGuard),
        moveStopListeners := true }
      ((cbs.onStart ⟨(posOf g p.scale e0).1, (posOf g p.scale e0).2, 0, 0, (posOf g p.scale e0).1, (posOf g p.scale e0).2⟩ h).st)).calls ++ [(⟨CbKind.stop, ⟨(posOf g p.scale eS).1, (posOf g p.scale eS).2, (posOf g p.scale eS).1 - (finalPos g p.scale es (posOf g p.scale e0)).1, (posOf g p.scale eS).2 - (finalPos g p.scale es (posOf g p.scale e0)).2, (finalPos g p.scale es (posOf g p.scale e0)).1, (finalPos g p.scale es (posOf g p.scale e0)).2⟩⟩ : CallRecord)])) =
        (runMoves p cbs g es
      { st with
        touchIdentifier := none, dragging := true,
        lastX := some (posOf g p.scale e0).1, lastY := some (posOf g p.scale e0).2,
        selectionGuard := (p.enableUserSelectHack || st.selectionGuard),
        moveStopListeners := true }
      ((cbs.onStart ⟨(posOf g p.scale e0).1, (posOf g p.scale e0).2, 0, 0, (posOf g p.scale e0).1, (posOf g p.scale e0).2⟩ h).st)).calls := by
      simp [dragOnly, List.filter_cons, List.filter_append]
      exact hc3
    rw [hfilter]
    exact hc4
  · rw [hcalls]
    have hfilter2 : dragOnly ((⟨CbKind.start, ⟨(posOf g p.scale e0).1, (posOf g p.scale e0).2, 0, 0, (posOf g p.scale e0).1, (posOf g p.scale e0).2⟩⟩ : CallRecord) :: ((runMoves p cbs g es
      { st with
        touchIdentifier := none, dragging := true,
        lastX := some (posOf g p.scale e0).1, lastY := some (posOf g p.scale e0).2,
        selectionGuard := (p.enableUserSelectHack || st.selectionGuard),
        moveStopListeners := true }
      ((cbs.onStart ⟨(posOf g p.scale e0).1, (posOf g p.scale e0).2, 0, 0, (posOf g p.scale e0).1, (posOf g p.scale e0).2⟩ h).st)).calls ++ [(⟨CbKind.stop, ⟨(posOf g p.scale eS).1, (posOf g p.scale eS).2, (posOf g p.scale eS).1 - (finalPos g p.scale es (posOf g p.scale e0)).1, (posOf g p.scale eS).2 - (finalPos g p.scale es (posOf g p.scale e0)).2, (finalPos g p.scale es (posOf g p.scale e0)).1, (finalPos g p.scale es (posOf g p.scale e0)).2⟩⟩ : CallRecord)])) =
        (runMoves p cbs g es
      { st with
        touchIdentifier := none, dragging := true,
        lastX := some (posOf g p.scale e0).1, lastY := some (posOf g p.scale e0).2,
        selectionGuard := (p.enableUserSelectHack || st.selectionGuard),
        moveStopListeners := true }
      ((cbs.onStart ⟨(posOf g p.scale e0).1, (posOf g p.scale e0).2, 0, 0, (posOf g p.scale e0).1, (posOf g p.scale e0).2⟩ h).st)).calls := by
      simp [dragOnly, List.filter_cons, List.filter_append]
      exact hc3
    rw [hfilter2]
    exact hc5

/-- Witness for C4: the concrete 150-to-100 clamp with slack 50. -/
theorem c4_bounds_slack_clamping_witness :
    c3Props.bounds = some (boundsLR 0 100) ∧
    (⟨true, true, 100, 0, 0, 0⟩ : DraggableState).x +
      (⟨150, 0, 50, 0, 100, 0⟩ : DraggableData).deltaX / c3Props.scale = 150 ∧
    (draggableOnDrag c3Props (fun _ => none) ⟨150, 0, 50, 0, 100, 0⟩
      ⟨true, true, 100, 0, 0, 0⟩).st.x = 100 ∧
    (draggableOnDrag c3Props (fun _ => none) ⟨150, 0, 50, 0, 100, 0⟩
      ⟨true, true, 100, 0, 0, 0⟩).st.slackX = 50 :=
  ⟨rfl, by norm_num [c3Props],
    ((c4_bounds_slack_clamping c3Props (fun _ => none)).1 ⟨150, 0, 50, 0, 100, 0⟩
      ⟨true, true, 100, 0, 0, 0⟩ rfl rfl rfl (by norm_num [c3Props])
      (fun _ hc => Option.noConfusion hc)).2.1,
    ((c4_bounds_slack_clamping c3Props (fun _ => none)).1 ⟨150, 0, 50, 0, 100, 0⟩
      ⟨true, true, 100, 0, 0, 0⟩ rfl rfl rfl (by norm_num [c3Props])
      (fun _ hc => Option.noConfusion hc)).2.2⟩

/-- Witness for C6 on a concrete three-event mouse session. -/
theorem c6_session_delta_algebra_witness :
    baseCoreProps.grid = none ∧ baseCoreProps.scale = 1 ∧
    (posOf zeroGeom baseCoreProps.scale (mouseEventAt 10 20)).1 =
      (posOf zeroGeom baseCoreProps.scale (mouseEventAt 1 2)).1 +
        sumDeltaX (runSession baseCoreProps trivialCbs zeroGeom (mouseEventAt 1 2)
          [mouseEventAt 4 6, mouseEventAt 3 5] (mouseEventAt 10 20) idleCoreState ()).calls ∧
    sumDeltaX (dragOnly (runSession baseCoreProps trivialCbs zeroGeom (mouseEventAt 1 2)
        [mouseEventAt 4 6, mouseEventAt 3 5] (mouseEventAt 10 20) idleCoreState ()).calls) =
      (finalPos zeroGeom baseCoreProps.scale [mouseEventAt 4 6, mouseEventAt 3 5]
        (posOf zeroGeom baseCoreProps.scale (mouseEventAt 1 2))).1 -
      (posOf zeroGeom baseCoreProps.scale (mouseEventAt 1 2)).1 :=
  ⟨rfl, rfl,
    (c6_session_delta_algebra baseCoreProps trivialCbs zeroGeom (mouseEventAt 1 2)
      [mouseEventAt 4 6, mouseEventAt 3 5] (mouseEventAt 10 20) idleCoreState ()
      rfl rfl rfl rfl rfl rfl rfl rfl rfl rfl rfl rfl
      (fun _ _ hc => Option.noConfusion hc) (fun _ _ => rfl)
      (fun _ _ hc => Option.noConfusion hc) (fun _ _ => rfl)
      (fun _ _ hc => Option.noConfusion hc) (fun _ _ => rfl)).2.2.2.1,
    (c6_session_delta_algebra baseCoreProps trivialCbs zeroGeom (mouseEventAt 1 2)
      [mouseEventAt 4 6, mouseEventAt 3 5] (mouseEventAt 10 20) idleCoreState ()
      rfl rfl rfl rfl rfl rfl rfl rfl rfl rfl rfl rfl
      (fun _ _ hc => Option.noConfusion hc) (fun _ _ => rfl)
      (fun _ _ hc => Option.noConfusion hc) (fun _ _ => rfl)
      (fun _ _ hc => Option.noConfusion hc) (fun _ _ => rfl)).2.2.2.2.2.1⟩
